import Mathlib

/-!
Shallow embedding of the analytics core of the Treasury Intelligence
Platform backend (`src/backend/server.py`).

Modelling conventions:
* Python floats are modelled as rationals (`ℚ`); `round(x, 2)` is modelled
  by `round2` (round half to even at two decimals, Python's rounding mode).
* Python `dict` accumulation (`d[k] = d.get(k, 0) + v`) is modelled by an
  association list updated in insertion order (`addToAssoc`), matching
  Python's dict key insertion-order semantics.
* The MongoDB collections the endpoints read and replace are passed in as
  explicit lists; an endpoint that deletes and re-inserts a collection is
  modelled as a function from the prior collection state to the new one.
* A Python exception (`ZeroDivisionError`, `TypeError`) is modelled by
  `Except.error`; pydantic `id` defaults (uuid4) and timestamps are
  external entropy and are passed in (`today`) or elided (`id`).
* `random.choice` in the netting run is modelled by an injected draw
  function `draw : ℕ → String` indexed by the number of transactions
  emitted so far.
-/

namespace Treasury

/-- Round half to even to the nearest integer, Python's `round` mode. -/
def roundHalfEven (x : ℚ) : ℤ :=
  if x - Int.floor x < 1/2 then Int.floor x
  else if 1/2 < x - Int.floor x then Int.floor x + 1
  else if Int.floor x % 2 = 0 then Int.floor x else Int.floor x + 1

/-- Python `round(x, 2)`: round to two decimal places, half to even. -/
def round2 (x : ℚ) : ℚ := (roundHalfEven (x * 100) : ℚ) / 100

/-- `CashBalance` record (`server.py` lines 59-68).  `balance_local` is an
`Option` because records read back from the store may carry a null value —
the validation engine's missing-balance check explicitly tests for null. -/
structure CashBalance where
  account_number : String
  balance_date : String
  currency : String
  balance_local : Option ℚ
  balance_usd : ℚ
  entity_code : String
  region : String
  deriving Repr, DecidableEq

/-- `FXRate` record (`server.py` lines 70-75), sans uuid. -/
structure FXRate where
  currency_pair : String
  rate : ℚ
  rate_date : String
  deriving Repr, DecidableEq

/-- `CashPool` record (`server.py` lines 77-85), sans uuid. -/
structure CashPool where
  pool_name : String
  pool_type : String
  region : String
  header_account : String
  participant_accounts : List String
  currency : String
  deriving Repr, DecidableEq

/-- `ValidationLog` record (`server.py` lines 87-95), sans uuid. -/
structure ValidationLog where
  check_date : String
  check_type : String
  severity : String
  description : String
  affected_records : ℕ
  status : String
  deriving Repr, DecidableEq

/-- `NettingResult` record (`server.py` lines 97-105), sans uuid. -/
structure NettingResult where
  netting_date : String
  from_entity : String
  to_entity : String
  amount : ℚ
  currency : String
  status : String
  deriving Repr, DecidableEq

/-- The static fallback table of `get_fx_rate` (`server.py` lines 122-130). -/
def default_rates : List (String × ℚ) :=
  [ ("EUR/USD", 110/100)
  , ("GBP/USD", 127/100)
  , ("SGD/USD", 74/100)
  , ("JPY/USD", 67/10000)
  , ("CNY/USD", 14/100)
  , ("INR/USD", 12/1000)
  , ("AUD/USD", 66/100) ]

/-- `get_fx_rate` (`server.py` lines 109-131).  The stored `fx_rates`
collection is passed in; `find_one` is modelled by `List.find?`. -/
def get_fx_rate (stored : List FXRate) (from_currency : String)
    (to_currency : String) : ℚ :=
  if from_currency = to_currency then 1
  else
    match stored.find?
        (fun r => r.currency_pair = from_currency ++ "/" ++ to_currency) with
    | some rate_doc => rate_doc.rate
    | none =>
      match default_rates.find?
          (fun p => p.1 = from_currency ++ "/" ++ to_currency) with
      | some p => p.2
      | none => 1

/-- Count of records with null or exactly-zero `balance_local`
(`server.py` line 139). -/
def missingCount (balances : List CashBalance) : ℕ :=
  (balances.filter
    (fun b => b.balance_local = none ∨ b.balance_local = some 0)).length

/-- Count of records with negative `balance_local` among non-null values
(`server.py` line 151, in the case where the sum does not raise). -/
def negativeCount (balances : List CashBalance) : ℕ :=
  (balances.filter
    (fun b => match b.balance_local with
              | some v => v < 0
              | none => False)).length

/-- The `(account_number, balance_date)` key list (`server.py` line 163). -/
def account_dates (balances : List CashBalance) : List (String × String) :=
  balances.map (fun b => (b.account_number, b.balance_date))

/-- `len(account_dates) - len(set(account_dates))` (`server.py` line 164). -/
def dupCount (balances : List CashBalance) : ℕ :=
  (account_dates balances).length - (account_dates balances).toFinset.card

/-- The logs the missing-balance check appends (`server.py` lines 139-148). -/
def missingLogs (today : String) (balances : List CashBalance) :
    List ValidationLog :=
  if missingCount balances > 0 then
    [ { check_date := today
      , check_type := "missing_balance"
      , severity := "High"
      , description := "Found " ++ toString (missingCount balances) ++
          " accounts with missing or zero balances"
      , affected_records := missingCount balances
      , status := "Open" } ]
  else []

/-- The logs the negative-cash check appends (`server.py` lines 151-160). -/
def negativeLogs (today : String) (balances : List CashBalance) :
    List ValidationLog :=
  if negativeCount balances > 0 then
    [ { check_date := today
      , check_type := "negative_cash"
      , severity := "Medium"
      , description := "Found " ++ toString (negativeCount balances) ++
          " accounts with negative balances"
      , affected_records := negativeCount balances
      , status := "Open" } ]
  else []

/-- The logs the duplicate check appends (`server.py` lines 162-173). -/
def dupLogs (today : String) (balances : List CashBalance) :
    List ValidationLog :=
  if dupCount balances > 0 then
    [ { check_date := today
      , check_type := "duplicate"
      , severity := "High"
      , description := "Found " ++ toString (dupCount balances) ++
          " duplicate account-date combinations"
      , affected_records := dupCount balances
      , status := "Open" } ]
  else []

/-- `validate_data` (`server.py` lines 133-175).  The negative-cash check
evaluates `b.get('balance_local', 0) < 0`; when `balance_local` is present
but null, `dict.get` returns `None` (not the default `0`) and `None < 0`
raises `TypeError` in Python 3, so the whole function raises whenever any
record has a null `balance_local`.  The guard is hoisted here: the logs
appended before the raise are discarded by the exception anyway. -/
def validate_data (today : String) (balances : List CashBalance) :
    Except String (List ValidationLog) :=
  if balances.any (fun b => b.balance_local = none) then
    Except.error "TypeError: comparison of NoneType and int"
  else
    Except.ok (missingLogs today balances ++ negativeLogs today balances ++
      dupLogs today balances)

/-- Python dict accumulation `d[k] = d.get(k, 0) + v` on an insertion-ordered
association list: an existing key is updated in place, a new key is appended. -/
def addToAssoc (acc : List (String × ℚ)) (k : String) (v : ℚ) :
    List (String × ℚ) :=
  if acc.any (fun p => p.1 = k) then
    acc.map (fun p => if p.1 = k then (p.1, p.2 + v) else p)
  else acc ++ [(k, v)]

/-- Result shape of `get_global_position` (`server.py` lines 399-434).
`as_of_date` is an `Option` because the empty branch (lines 405-411)
returns a dict with no `as_of_date` key at all, while the non-empty branch
(line 433) always supplies one. -/
structure GlobalPosition where
  total_liquidity_usd : ℚ
  by_region : List (String × ℚ)
  by_currency : List (String × ℚ)
  total_accounts : ℕ
  as_of_date : Option String
  deriving Repr, DecidableEq

/-- `get_global_position` (`server.py` lines 399-434).  The `by_currency`
accumulation (line 426) adds `balance['balance_local']` directly, so a
present-but-null value raises `TypeError` in Python 3 (`int + None`); the
guard is hoisted here, since the partially built dicts are discarded by the
exception anyway.  The empty branch (lines 405-411) is the object of
claim C5. -/
def get_global_position (balances : List CashBalance) :
    Except String GlobalPosition :=
  if balances = [] then
    Except.ok
      { total_liquidity_usd := 0
      , by_region := []
      , by_currency := []
      , total_accounts := 0
      , as_of_date := none }
  else if balances.any (fun b => b.balance_local = none) then
    Except.error "TypeError: unsupported operand types int and NoneType"
  else
    Except.ok
      { total_liquidity_usd :=
          round2 ((balances.map (fun b => b.balance_usd)).sum)
      , by_region := (balances.foldl
          (fun acc b => addToAssoc acc b.region b.balance_usd) []).map
            (fun p => (p.1, round2 p.2))
      , by_currency := (balances.foldl
          (fun acc b =>
            addToAssoc acc b.currency (b.balance_local.getD 0)) []).map
            (fun p => (p.1, round2 p.2))
      , total_accounts := balances.length
      , as_of_date := (balances.head?).map (fun b => b.balance_date) }

/-- Result shape of `get_regional_liquidity` (`server.py` lines 439-471).
The empty branch of the handler (lines 445-451) returns a dict with no
`account_count` key at all, hence the `Option ℕ`. -/
structure RegionalLiquidity where
  region : String
  total_usd : ℚ
  entities : List (String × ℚ)
  currencies : List (String × ℚ)
  account_count : Option ℕ
  deriving Repr, DecidableEq

/-- `get_regional_liquidity` (`server.py` lines 439-471).  The Mongo query
`find({"region": region})` is modelled by filtering the balances list.  As
in `get_global_position`, the `by_currency` accumulation (line 463) adds a
raw `balance['balance_local']` and so raises `TypeError` on a
present-but-null value; the guard is hoisted. -/
def get_regional_liquidity (region : String)
    (all_balances : List CashBalance) : Except String RegionalLiquidity :=
  if all_balances.filter (fun b => b.region = region) = [] then
    Except.ok
      { region := region
      , total_usd := 0
      , entities := []
      , currencies := []
      , account_count := none }
  else if (all_balances.filter (fun b => b.region = region)).any
      (fun b => b.balance_local = none) then
    Except.error "TypeError: unsupported operand types int and NoneType"
  else
    Except.ok
      { region := region
      , total_usd := round2 (((all_balances.filter
          (fun b => b.region = region)).map (fun b => b.balance_usd)).sum)
      , entities := ((all_balances.filter
          (fun b => b.region = region)).foldl
            (fun acc b => addToAssoc acc b.entity_code b.balance_usd) []).map
              (fun p => (p.1, round2 p.2))
      , currencies := ((all_balances.filter
          (fun b => b.region = region)).foldl
            (fun acc b =>
              addToAssoc acc b.currency (b.balance_local.getD 0)) []).map
              (fun p => (p.1, round2 p.2))
      , account_count :=
          some (all_balances.filter (fun b => b.region = region)).length }

/-- The balances the pool endpoints fetch: the Mongo query
`find({"account_number": {"$in": pool.participant_accounts}})` modelled by a
filter over the balance collection. -/
def participantBalances (pool : CashPool) (balances : List CashBalance) :
    List CashBalance :=
  balances.filter (fun b => pool.participant_accounts.contains b.account_number)

/-- Per-pool entry of `get_cash_pool_status` (`server.py` lines 498-506). -/
structure PoolStatus where
  pool_name : String
  pool_type : String
  region : String
  total_balance_usd : ℚ
  participants : ℕ
  efficiency : ℚ
  status : String
  deriving Repr, DecidableEq

/-- One iteration of the `get_cash_pool_status` loop
(`server.py` lines 485-506). -/
def poolStatus (pool : CashPool) (balance_coll : List CashBalance) :
    PoolStatus :=
  let balances := participantBalances pool balance_coll
  let total_balance := (balances.map (fun b => b.balance_usd)).sum
  let participant_count := balances.length
  let efficiency : ℚ :=
    min 100 (((participant_count : ℚ) /
      ((max 1 pool.participant_accounts.length : ℕ) : ℚ)) * 100)
  { pool_name := pool.pool_name
  , pool_type := pool.pool_type
  , region := pool.region
  , total_balance_usd := round2 total_balance
  , participants := participant_count
  , efficiency := round2 efficiency
  , status := if participant_count > 0 then "Active" else "Inactive" }

/-- `get_cash_pool_status` over the whole pool collection
(`server.py` lines 478-511). -/
def get_cash_pool_status (pools : List CashPool)
    (balance_coll : List CashBalance) : List PoolStatus × ℕ :=
  (pools.map (fun pool => poolStatus pool balance_coll), pools.length)

/-- One participant entry of `calculate_cash_pooling`
(`server.py` lines 546-552). -/
structure Participant where
  account : String
  entity : String
  balance_usd : ℚ
  variance_from_avg : ℚ
  status : String
  deriving Repr, DecidableEq

/-- Result of `calculate_cash_pooling` (`server.py` lines 516-561): the
empty branch (lines 532-537) returns a dict with keys `pool_name`,
`total_pooled` (0) and `participants` ([]), a different shape from the full
branch, hence the two constructors. -/
inductive PoolCalcResponse where
  | empty (pool_name : String)
  | full (pool_name : String) (pool_type : String)
      (total_pooled_usd : ℚ) (average_balance : ℚ)
      (participants : List Participant)
  deriving Repr, DecidableEq

/-- `average_balance = total_pooled / len(balances)` (`server.py` line 541). -/
def poolAverage (balances : List CashBalance) : ℚ :=
  (balances.map (fun b => b.balance_usd)).sum / (balances.length : ℚ)

/-- One participant entry of the pooling loop (`server.py` lines 544-552). -/
def mkParticipant (average_balance : ℚ) (b : CashBalance) : Participant :=
  { account := b.account_number
  , entity := b.entity_code
  , balance_usd := b.balance_usd
  , variance_from_avg := round2 (b.balance_usd - average_balance)
  , status := if b.balance_usd - average_balance > 0
              then "Surplus" else "Deficit" }

/-- `calculate_cash_pooling` (`server.py` lines 516-561), given the pool the
handler resolved for the region and the balance collection. -/
def calculate_cash_pooling (pool : CashPool)
    (balance_coll : List CashBalance) : PoolCalcResponse :=
  if participantBalances pool balance_coll = [] then
    .empty pool.pool_name
  else
    .full pool.pool_name pool.pool_type
      (round2 (((participantBalances pool balance_coll).map
        (fun b => b.balance_usd)).sum))
      (round2 (poolAverage (participantBalances pool balance_coll)))
      ((participantBalances pool balance_coll).map
        (mkParticipant (poolAverage (participantBalances pool balance_coll))))

/-- Grouping of `balance_usd` per `entity_code` (`server.py` lines 579-582),
insertion-ordered like a Python dict. -/
def groupByEntity (balances : List CashBalance) : List (String × ℚ) :=
  balances.foldl (fun acc b => addToAssoc acc b.entity_code b.balance_usd) []

/-- `avg_balance` of the netting run (`server.py` line 585). -/
def avgOf (entity_balances : List (String × ℚ)) : ℚ :=
  (entity_balances.map (fun p => p.2)).sum / (entity_balances.length : ℚ)

/-- The surplus partition (`server.py` line 586), in insertion order. -/
def surplusEntities (entity_balances : List (String × ℚ)) (avg : ℚ) :
    List (String × ℚ) :=
  entity_balances.filter (fun p => p.2 > avg)

/-- The deficit partition (`server.py` line 587), in insertion order. -/
def deficitEntities (entity_balances : List (String × ℚ)) (avg : ℚ) :
    List (String × ℚ) :=
  entity_balances.filter (fun p => p.2 < avg)

/-- The candidate pairs of the nested netting loop (`server.py` lines
593-594): first three deficit entities, each against the first two surplus
entities, in their dict insertion order. -/
def candidatePairs (entity_balances : List (String × ℚ)) (avg : ℚ) :
    List ((String × ℚ) × (String × ℚ)) :=
  ((deficitEntities entity_balances avg).take 3).flatMap (fun d =>
    ((surplusEntities entity_balances avg).take 2).map (fun s => (d, s)))

/-- `netting_amount` for a (deficit, surplus) pair
(`server.py` lines 596-599). -/
def nettingAmount (avg : ℚ) (p : (String × ℚ) × (String × ℚ)) : ℚ :=
  min |p.1.2 - avg| (p.2.2 - avg) * (3/10)

/-- The body of the netting loop (`server.py` lines 601-609): append a
transaction when the amount clears the 100k threshold; `random.choice` is
modelled by `draw` applied to the count of transactions emitted so far. -/
def emitStep (draw : ℕ → String) (today : String) (avg : ℚ)
    (acc : List NettingResult) (p : (String × ℚ) × (String × ℚ)) :
    List NettingResult :=
  if nettingAmount avg p > 100000 then
    acc ++ [ { netting_date := today
             , from_entity := p.2.1
             , to_entity := p.1.1
             , amount := round2 (nettingAmount avg p)
             , currency := "USD"
             , status := draw acc.length } ]
  else acc

/-- The pure computation of `run_netting` (`server.py` lines 576-609):
grouping, average, partition, bounded nested loop.  With zero entities the
average (line 585) divides by zero and Python raises. -/
def nettingCore (draw : ℕ → String) (today : String)
    (balances : List CashBalance) : Except String (List NettingResult) :=
  if groupByEntity balances = [] then
    Except.error "ZeroDivisionError: division by zero"
  else
    Except.ok ((candidatePairs (groupByEntity balances)
        (avgOf (groupByEntity balances))).foldl
      (emitStep draw today (avgOf (groupByEntity balances))) [])

/-- Response body of a successful `run_netting` (`server.py` lines 615-621). -/
structure NettingResponse where
  netting_date : String
  total_transactions : ℕ
  total_netted_usd : ℚ
  transactions : List NettingResult
  deriving Repr, DecidableEq

/-- `run_netting` (`server.py` lines 568-624) as a transition on the
persisted `netting_results` collection: the old results are deleted first
(line 573), before the balances are even read, so a run that raises leaves
the collection empty; a successful run's results are then inserted
(lines 611-613).  Returns (collection after the run, HTTP outcome). -/
def run_netting (draw : ℕ → String) (today : String)
    (balances : List CashBalance) (prior : List NettingResult) :
    List NettingResult × Except String NettingResponse :=
  match nettingCore draw today balances with
  | Except.error e => ([], Except.error e)
  | Except.ok results =>
    (results,
     Except.ok
       { netting_date := today
       , total_transactions := results.length
       , total_netted_usd := round2 ((results.map (fun r => r.amount)).sum)
       , transactions := results })

/-- Response body of a successful `run_validation` (`server.py`
lines 682-687). -/
structure ValidationResponse where
  issues_found : ℕ
  validations : List ValidationLog
  deriving Repr, DecidableEq

/-- `run_validation` (`server.py` lines 658-690) as a transition on the
persisted `validation_logs` collection.  With an empty snapshot the handler
returns early (lines 665-670) without touching the stored logs; otherwise
`validate_data` runs (a raise leaves the store untouched, since the delete
on line 676 only happens afterwards), then the old logs are deleted and the
new ones inserted.  Returns (collection after the run, HTTP outcome). -/
def run_validation (today : String) (balances : List CashBalance)
    (prior : List ValidationLog) :
    List ValidationLog × Except String ValidationResponse :=
  if balances = [] then
    (prior, Except.ok { issues_found := 0, validations := [] })
  else
    match validate_data today balances with
    | Except.error e => (prior, Except.error e)
    | Except.ok validation_logs =>
      (validation_logs,
       Except.ok { issues_found := validation_logs.length
                 , validations := validation_logs })

/-! Helper lemmas about the rounding model and list folds. -/

/-- `roundHalfEven` moves its argument by at most one half. -/
theorem roundHalfEven_bounds (x : ℚ) :
    x - 1/2 ≤ (roundHalfEven x : ℚ) ∧ (roundHalfEven x : ℚ) ≤ x + 1/2 := by
  have h1 : (Int.floor x : ℚ) ≤ x := Int.floor_le x
  have h2 : x < Int.floor x + 1 := Int.lt_floor_add_one x
  unfold roundHalfEven
  split_ifs with ha hb hc
  · constructor <;> linarith
  · push_cast
    constructor <;> linarith
  · constructor <;> linarith
  · push_cast
    constructor <;> linarith

/-- Rounding to two decimals moves a value by at most `1/200`. -/
theorem abs_round2_sub_le (x : ℚ) : |round2 x - x| ≤ 1/200 := by
  obtain ⟨h1, h2⟩ := roundHalfEven_bounds (x * 100)
  unfold round2
  rw [abs_le]
  constructor <;> linarith

/-- Evaluation rule for `round2` when the scaled value sits strictly
between its floor's midpoint and the next integer. -/
theorem round2_eval (x : ℚ) (n : ℤ) (h1 : (n : ℚ) ≤ x * 100)
    (h2 : x * 100 < n + 1) (h3 : 1/2 < x * 100 - n) :
    round2 x = ((n : ℚ) + 1) / 100 := by
  unfold round2 roundHalfEven
  have hf : Int.floor (x * 100) = n := Int.floor_eq_iff.mpr ⟨h1, h2⟩
  rw [hf, if_neg (by linarith), if_pos h3]
  push_cast
  ring

/-- Rounding a value above the 100k netting threshold keeps it positive. -/
theorem round2_pos_of_gt (x : ℚ) (h : 100000 < x) : 0 < round2 x := by
  have hb := abs_round2_sub_le x
  rw [abs_le] at hb
  linarith [hb.1]

/-- Summing the deviations from a constant equals the sum minus
`length * constant`. -/
theorem sum_map_sub {α : Type} (f : α → ℚ) (c : ℚ) :
    ∀ l : List α,
      (l.map (fun x => f x - c)).sum = (l.map f).sum - l.length * c
  | [] => by simp
  | a :: l => by
    simp only [List.map_cons, List.sum_cons, List.length_cons,
      sum_map_sub f c l]
    push_cast
    ring

/-- Pointwise-close maps have sums within `length * bound` of each other. -/
theorem sum_map_close {α : Type} (f g : α → ℚ) (c : ℚ) :
    ∀ l : List α, (∀ x ∈ l, |f x - g x| ≤ c) →
      |(l.map f).sum - (l.map g).sum| ≤ l.length * c
  | [] => by simp
  | a :: l => fun h => by
    have ha := h a (List.mem_cons_self a l)
    have hl := sum_map_close f g c l
      (fun x hx => h x (List.mem_cons_of_mem a hx))
    simp only [List.map_cons, List.sum_cons, List.length_cons]
    push_cast
    have heq : f a + (l.map f).sum - (g a + (l.map g).sum)
        = (f a - g a) + ((l.map f).sum - (l.map g).sum) := by ring
    rw [heq]
    calc |(f a - g a) + ((l.map f).sum - (l.map g).sum)|
        ≤ |f a - g a| + |(l.map f).sum - (l.map g).sum| := abs_add _ _
      _ ≤ c + l.length * c := add_le_add ha hl
      _ = (l.length + 1) * c := by ring

/-- The flat product of two lists has length `|l| * |m|`. -/
theorem length_flatMap_map {α β γ : Type} (f : α → β → γ) :
    ∀ (l : List α) (m : List β),
      (l.flatMap fun a => m.map (f a)).length = l.length * m.length
  | [], _ => by simp
  | a :: l, m => by
    simp only [List.flatMap_cons, List.length_append, List.length_map,
      List.length_cons, length_flatMap_map f l m]
    ring

/-- `addToAssoc` never empties an accumulator. -/
theorem addToAssoc_ne_nil (acc : List (String × ℚ)) (k : String) (v : ℚ) :
    addToAssoc acc k v ≠ [] := by
  unfold addToAssoc
  split
  case isTrue h =>
    intro hc
    rw [List.map_eq_nil_iff] at hc
    subst hc
    simp at h
  case isFalse h => simp

/-- Grouping a non-empty balance list by entity yields a non-empty map. -/
theorem groupByEntity_ne_nil (balances : List CashBalance)
    (h : balances ≠ []) : groupByEntity balances ≠ [] := by
  have step : ∀ (l : List CashBalance) (acc : List (String × ℚ)),
      acc ≠ [] →
      l.foldl (fun acc b => addToAssoc acc b.entity_code b.balance_usd) acc
        ≠ [] := by
    intro l
    induction l with
    | nil => intro acc hacc; exact hacc
    | cons b l ih =>
      intro acc _
      exact ih _ (addToAssoc_ne_nil acc b.entity_code b.balance_usd)
  match balances, h with
  | b :: l, _ =>
    show (b :: l).foldl _ [] ≠ []
    rw [List.foldl_cons]
    exact step l _ (addToAssoc_ne_nil [] b.entity_code b.balance_usd)

/-- The exact (unrounded) variances from the pool average sum to zero. -/
theorem sum_sub_poolAverage (l : List CashBalance)
    (hlen : ((l.length : ℕ) : ℚ) ≠ 0) :
    (l.map (fun b => b.balance_usd - poolAverage l)).sum = 0 := by
  rw [sum_map_sub]
  have hcancel : (l.length : ℚ) *
      ((l.map (fun b => b.balance_usd)).sum / (l.length : ℚ))
        = (l.map (fun b => b.balance_usd)).sum := by
    rw [mul_comm]
    exact div_mul_cancel₀ _ hlen
  rw [poolAverage, hcancel, sub_self]

/-- Whatever is already accumulated survives the netting emission fold. -/
theorem emit_subset (draw : ℕ → String) (today : String) (avg : ℚ) :
    ∀ (pairs : List ((String × ℚ) × (String × ℚ)))
      (acc : List NettingResult), ∀ tx ∈ acc,
      tx ∈ pairs.foldl (emitStep draw today avg) acc
  | [], _ => fun _ h => h
  | p :: ps, acc => fun tx h => by
    rw [List.foldl_cons]
    apply emit_subset draw today avg ps
    unfold emitStep
    split
    · exact List.mem_append_left _ h
    · exact h

/-- Every transaction produced by the netting emission fold comes from a
candidate pair whose netting amount clears the threshold, and carries
exactly the fields the loop writes. -/
theorem emit_mem (draw : ℕ → String) (today : String) (avg : ℚ) :
    ∀ (pairs : List ((String × ℚ) × (String × ℚ)))
      (acc : List NettingResult) (tx : NettingResult),
      tx ∈ pairs.foldl (emitStep draw today avg) acc →
      tx ∈ acc ∨ ∃ p ∈ pairs, 100000 < nettingAmount avg p ∧
        tx.netting_date = today ∧ tx.from_entity = p.2.1 ∧
        tx.to_entity = p.1.1 ∧ tx.amount = round2 (nettingAmount avg p) ∧
        tx.currency = "USD"
  | [], _, _ => fun h => Or.inl h
  | p :: ps, acc, tx => fun h => by
    rw [List.foldl_cons] at h
    rcases emit_mem draw today avg ps _ tx h with hacc | ⟨q, hq, hrest⟩
    · unfold emitStep at hacc
      split at hacc
      case isTrue hcond =>
        rcases List.mem_append.mp hacc with hl | hr
        · exact Or.inl hl
        · rcases List.mem_singleton.mp hr with rfl
          exact Or.inr ⟨p, List.mem_cons_self p ps,
            hcond, rfl, rfl, rfl, rfl, rfl⟩
      case isFalse => exact Or.inl hacc
    · exact Or.inr ⟨q, List.mem_cons_of_mem p hq, hrest⟩

/-- Every candidate pair whose netting amount clears the threshold yields a
transaction in the netting emission fold. -/
theorem emit_complete (draw : ℕ → String) (today : String) (avg : ℚ) :
    ∀ (pairs : List ((String × ℚ) × (String × ℚ)))
      (acc : List NettingResult) (p : (String × ℚ) × (String × ℚ)),
      p ∈ pairs → 100000 < nettingAmount avg p →
      ∃ tx ∈ pairs.foldl (emitStep draw today avg) acc,
        tx.netting_date = today ∧ tx.from_entity = p.2.1 ∧
        tx.to_entity = p.1.1 ∧ tx.amount = round2 (nettingAmount avg p) ∧
        tx.currency = "USD"
  | [], _, p => fun hp _ => absurd hp (List.not_mem_nil p)
  | q :: ps, acc, p => fun hp hamt => by
    rw [List.foldl_cons]
    rcases List.mem_cons.mp hp with rfl | htail
    · refine ⟨{ netting_date := today, from_entity := p.2.1
              , to_entity := p.1.1, amount := round2 (nettingAmount avg p)
              , currency := "USD", status := draw acc.length }, ?_,
              rfl, rfl, rfl, rfl, rfl⟩
      apply emit_subset draw today avg ps
      unfold emitStep
      rw [if_pos hamt]
      exact List.mem_append_right _ (List.mem_singleton.mpr rfl)
    · exact emit_complete draw today avg ps _ p htail hamt

/-! Concrete sample records used by witnesses and counterexamples. -/

/-- A balance record with a null `balance_local`. -/
def nullBalance : CashBalance :=
  { account_number := "JCI-US-001-1234"
  , balance_date := "2024-01-01"
  , currency := "USD"
  , balance_local := none
  , balance_usd := 0
  , entity_code := "JCI-US-001"
  , region := "AMER" }

/-- Scenario B of the spec, entity E1: USD total 1,000,000. -/
def balE1 : CashBalance :=
  { account_number := "ACC-E1"
  , balance_date := "2024-01-01"
  , currency := "USD"
  , balance_local := some 1000000
  , balance_usd := 1000000
  , entity_code := "E1"
  , region := "AMER" }

/-- Scenario B of the spec, entity E2: USD total 2,000,000. -/
def balE2 : CashBalance :=
  { account_number := "ACC-E2"
  , balance_date := "2024-01-01"
  , currency := "USD"
  , balance_local := some 2000000
  , balance_usd := 2000000
  , entity_code := "E2"
  , region := "AMER" }

/-- A leftover netting transaction from a previous run. -/
def staleTx : NettingResult :=
  { netting_date := "2023-12-31"
  , from_entity := "E9"
  , to_entity := "E8"
  , amount := 500000
  , currency := "USD"
  , status := "Settled" }

/-- A leftover validation log from a previous run. -/
def staleLog : ValidationLog :=
  { check_date := "2023-12-31"
  , check_type := "missing_balance"
  , severity := "High"
  , description := "Found 3 accounts with missing or zero balances"
  , affected_records := 3
  , status := "Open" }

/-- Scenario C of the spec: a pool with three participant accounts. -/
def scenarioPool : CashPool :=
  { pool_name := "Scenario C Pool"
  , pool_type := "Physical"
  , region := "APAC"
  , header_account := "POOL-HDR"
  , participant_accounts := ["A", "B", "C"]
  , currency := "USD" }

/-- Scenario C of the spec: balances exist only for accounts A and B. -/
def scenarioBalances : List CashBalance :=
  [ { account_number := "A", balance_date := "2024-01-01", currency := "USD"
    , balance_local := some 100, balance_usd := 100
    , entity_code := "E1", region := "APAC" }
  , { account_number := "B", balance_date := "2024-01-01", currency := "USD"
    , balance_local := some 200, balance_usd := 200
    , entity_code := "E2", region := "APAC" } ]

/-! Claim theorems. -/

/-- C1: the claim says the netting run short-circuits to an empty/zero
result on the empty balance snapshot.  The code has no such guard: with
zero entities the average on `server.py` line 585 divides by zero and the
run raises (surfaced as HTTP 500), leaving the freshly cleared
`netting_results` collection empty.  This theorem evaluates the embedded
run at the failing input. -/
theorem c1_netting_empty_snapshot_raises :
    run_netting (fun _ => "Settled") "2024-01-01" [] [staleTx]
      = ([], Except.error "ZeroDivisionError: division by zero") := by
  rfl

/-- C4: the claim says `validate_data` is total, in particular on records
with a null `balance_local`.  The negative-cash check on `server.py` line
151 evaluates `b.get('balance_local', 0) < 0`; a present-but-null value is
returned as `None` (the `0` default applies only to a missing key) and
`None < 0` raises `TypeError` in Python 3.  This theorem evaluates the
embedded function at the failing input. -/
theorem c4_validate_raises_on_null_balance :
    validate_data "2024-01-01" [nullBalance]
      = Except.error "TypeError: comparison of NoneType and int" := by
  rfl

/-- C5 counterexample: the claim says the regional position on the empty
balance set reports `account_count == 0`; the empty branch of
`get_regional_liquidity` (`server.py` lines 445-451) instead returns a
response with no `account_count` key at all — the result it succeeds with
carries `none`, not `some 0`, in the `account_count` field. -/
theorem c5_counterexample :
    get_regional_liquidity "EMEA" [] = Except.ok
      { region := "EMEA", total_usd := 0, entities := [], currencies := []
      , account_count := none } ∧
    ({ region := "EMEA", total_usd := 0, entities := [], currencies := []
     , account_count := none } : RegionalLiquidity).account_count
      ≠ some 0 :=
  ⟨rfl, by decide⟩

/-- C5 amended: on the empty balance set neither endpoint raises: the
global position returns total 0, empty region and currency maps and
`total_accounts = 0`, with its empty branch omitting the `as_of_date` key
(modelled as `none`); the regional position returns total 0 and empty
entity and currency maps, and omits the `account_count` field entirely
(modelled as `none`). -/
theorem c5_empty_position_zero :
    get_global_position [] = Except.ok
      { total_liquidity_usd := 0, by_region := [], by_currency := []
      , total_accounts := 0, as_of_date := none } ∧
    ∀ region, get_regional_liquidity region [] = Except.ok
      { region := region, total_usd := 0, entities := [], currencies := []
      , account_count := none } := by
  constructor
  · rfl
  · intro region
    rfl

/-- C7: for every pool and balance collection, the reported efficiency is
`min(100, participants_with_balance / max(1, len(participant_accounts)) *
100)` (rounded to two decimals at the response boundary) and the state is
`Active` iff at least one participant has a balance; in Scenario C (three
participant accounts, two with balances) the efficiency is 66.67 and the
state `Active`. -/
theorem c7_pool_efficiency_and_state :
    (∀ (pool : CashPool) (coll : List CashBalance),
      (poolStatus pool coll).efficiency =
        round2 (min 100 ((((participantBalances pool coll).length : ℚ) /
          ((max 1 pool.participant_accounts.length : ℕ) : ℚ)) * 100)) ∧
      ((poolStatus pool coll).status = "Active" ↔
        0 < (participantBalances pool coll).length)) ∧
    (poolStatus scenarioPool scenarioBalances).efficiency = 6667/100 ∧
    (poolStatus scenarioPool scenarioBalances).status = "Active" := by
  refine ⟨fun pool coll => ⟨rfl, ?_⟩, ?_, ?_⟩
  · by_cases h : 0 < (participantBalances pool coll).length
    · simp [poolStatus, h]
    · simp [poolStatus, h]
  · have hproj : (poolStatus scenarioPool scenarioBalances).efficiency
        = round2 (min 100 ((2 : ℚ) / 3 * 100)) := by
      norm_num [poolStatus, participantBalances, scenarioPool,
        scenarioBalances]
    have hm : min (100 : ℚ) (2 / 3 * 100) = 200/3 := by
      rw [min_eq_right] <;> norm_num
    rw [hproj, hm,
      round2_eval (200/3 : ℚ) 6666 (by norm_num) (by norm_num) (by norm_num)]
    norm_num
  · norm_num [poolStatus, participantBalances, scenarioPool, scenarioBalances]

/-- C8: rate lookup returns 1 when the currencies coincide (so converting
an amount from a currency to itself is the identity); otherwise it returns
the stored rate for the pair when present, else the seven-pair default
table's rate, else 1 — never an error for an unknown currency. -/
theorem c8_fx_rate_resolution (stored : List FXRate)
    (c₁ c₂ : String) (amount : ℚ) :
    (c₁ = c₂ → get_fx_rate stored c₁ c₂ = 1) ∧
    (amount * get_fx_rate stored c₁ c₁ = amount) ∧
    (c₁ ≠ c₂ → ∀ r,
      stored.find? (fun fr => fr.currency_pair = c₁ ++ "/" ++ c₂) = some r →
      get_fx_rate stored c₁ c₂ = r.rate) ∧
    (c₁ ≠ c₂ →
      stored.find? (fun fr => fr.currency_pair = c₁ ++ "/" ++ c₂) = none →
      ∀ d, default_rates.find? (fun p => p.1 = c₁ ++ "/" ++ c₂) = some d →
      get_fx_rate stored c₁ c₂ = d.2) ∧
    (c₁ ≠ c₂ →
      stored.find? (fun fr => fr.currency_pair = c₁ ++ "/" ++ c₂) = none →
      default_rates.find? (fun p => p.1 = c₁ ++ "/" ++ c₂) = none →
      get_fx_rate stored c₁ c₂ = 1) := by
  refine ⟨?_, ?_, ?_, ?_, ?_⟩
  · intro h
    unfold get_fx_rate
    rw [if_pos h]
  · unfold get_fx_rate
    rw [if_pos rfl, mul_one]
  · intro hne r hr
    unfold get_fx_rate
    rw [if_neg hne, hr]
  · intro hne hnone d hd
    unfold get_fx_rate
    rw [if_neg hne, hnone, hd]
  · intro hne hnone hdef
    unfold get_fx_rate
    rw [if_neg hne, hnone, hdef]

/-- A one-row stored rate table used by the C8 witness. -/
def storedGbp : FXRate :=
  { currency_pair := "GBP/USD", rate := 13/10, rate_date := "2024-01-01" }

/-- C8 witness: concrete instances of every branch of the rate resolution,
obtained from `c8_fx_rate_resolution` with its hypotheses discharged by
evaluation: a stored GBP/USD rate overrides the default table, EUR/USD
falls back to the default 1.10, an unknown currency resolves to 1, and
same-currency conversion is the identity. -/
theorem c8_witness :
    get_fx_rate [storedGbp] "GBP" "USD" = 13/10 ∧
    get_fx_rate [] "EUR" "USD" = 110/100 ∧
    get_fx_rate [] "XXX" "USD" = 1 ∧
    (5 : ℚ) * get_fx_rate [] "USD" "USD" = 5 := by
  refine ⟨?_, ?_, ?_, ?_⟩
  · exact (c8_fx_rate_resolution [storedGbp] "GBP" "USD" 0).2.2.1
      (by decide) storedGbp (by rfl)
  · exact (c8_fx_rate_resolution [] "EUR" "USD" 0).2.2.2.1
      (by decide) rfl ("EUR/USD", 110/100) (by rfl)
  · exact (c8_fx_rate_resolution [] "XXX" "USD" 0).2.2.2.2
      (by decide) rfl (by rfl)
  · exact (c8_fx_rate_resolution [] "USD" "USD" 5).2.1

/-- C10: the netting run replaces the persisted `netting_results`
collection wholesale: the post-run collection does not depend on its prior
contents (the delete on `server.py` line 573 runs unconditionally, before
the balances are read), and it always equals exactly the transactions of
this run — empty when the run raises mid-computation, since nothing has
been inserted at that point. -/
theorem c10_netting_replace_all (draw : ℕ → String) (today : String)
    (balances : List CashBalance)
    (prior prior' : List NettingResult) :
    (run_netting draw today balances prior).1
        = (run_netting draw today balances prior').1 ∧
    (run_netting draw today balances prior).1
        = (match (run_netting draw today balances prior).2 with
           | Except.error _ => []
           | Except.ok resp => resp.transactions) := by
  unfold run_netting
  cases h : nettingCore draw today balances with
  | error e => simp
  | ok results => simp

/-- The C2 property of a netting run: the candidate pairs are exactly the
first three deficit entities crossed with the first two surplus entities in
dict insertion order (at most 6 pairs); for each pair the amount is
`min(abs(deficit - avg), surplus - avg) * 0.3`; a transaction is emitted
(from the surplus entity, to the deficit entity, currency USD) iff that
amount exceeds 100000, and every emitted amount is positive. -/
def nettingRunSpec (draw : ℕ → String) (today : String)
    (balances : List CashBalance) : Prop :=
  let eb := groupByEntity balances
  let avg := avgOf eb
  let pairs := candidatePairs eb avg
  ∃ txs, nettingCore draw today balances = Except.ok txs ∧
    pairs = ((deficitEntities eb avg).take 3).flatMap
      (fun d => ((surplusEntities eb avg).take 2).map (fun s => (d, s))) ∧
    pairs.length ≤ 6 ∧
    (∀ tx ∈ txs, tx.currency = "USD" ∧ 0 < tx.amount ∧
      ∃ p ∈ pairs, 100000 < nettingAmount avg p ∧
        tx.from_entity = p.2.1 ∧ tx.to_entity = p.1.1 ∧
        tx.amount = round2 (nettingAmount avg p)) ∧
    (∀ p ∈ pairs, 100000 < nettingAmount avg p →
      ∃ tx ∈ txs, tx.from_entity = p.2.1 ∧ tx.to_entity = p.1.1 ∧
        tx.amount = round2 (nettingAmount avg p))

/-- C2: every non-empty balance snapshot makes the netting run succeed and
satisfy `nettingRunSpec`: 3-by-2 candidate pairing in insertion order,
emission exactly above the 100k threshold, USD currency and positive
amounts throughout. -/
theorem c2_netting_pairing_threshold (draw : ℕ → String) (today : String)
    (balances : List CashBalance) (h : balances ≠ []) :
    nettingRunSpec draw today balances := by
  have heb : groupByEntity balances ≠ [] := groupByEntity_ne_nil balances h
  simp only [nettingRunSpec]
  refine ⟨(candidatePairs (groupByEntity balances)
      (avgOf (groupByEntity balances))).foldl
        (emitStep draw today (avgOf (groupByEntity balances))) [],
    ?_, rfl, ?_, ?_, ?_⟩
  · unfold nettingCore
    rw [if_neg heb]
  · unfold candidatePairs
    rw [length_flatMap_map]
    calc ((deficitEntities _ _).take 3).length *
          ((surplusEntities _ _).take 2).length
        ≤ 3 * 2 :=
          Nat.mul_le_mul (List.length_take_le _ _) (List.length_take_le _ _)
      _ ≤ 6 := by norm_num
  · intro tx htx
    rcases emit_mem draw today _ _ [] tx htx with
      hacc | ⟨p, hp, hamt, _, hfrom, hto, hamount, hcur⟩
    · cases hacc
    · exact ⟨hcur, by rw [hamount]; exact round2_pos_of_gt _ hamt,
        p, hp, hamt, hfrom, hto, hamount⟩
  · intro p hp hamt
    obtain ⟨tx, htx, _, hfrom, hto, hamount, _⟩ :=
      emit_complete draw today _ _ [] p hp hamt
    exact ⟨tx, htx, hfrom, hto, hamount⟩

/-- C2 witness: spec Scenario B — entities E1 at 1,000,000 and E2 at
2,000,000 — is a non-empty snapshot, so `c2_netting_pairing_threshold`
applies to it. -/
theorem c2_witness :
    ([balE1, balE2] ≠ ([] : List CashBalance)) ∧
    nettingRunSpec (fun _ => "Settled") "2024-01-01" [balE1, balE2] :=
  ⟨by decide, c2_netting_pairing_threshold (fun _ => "Settled") "2024-01-01"
    [balE1, balE2] (by decide)⟩

/-- C3 counterexample: the claim says every validation run — including one
over the empty snapshot — leaves the persisted `ValidationLog` collection
holding exactly that run's logs.  On the empty snapshot the handler returns
early (`server.py` lines 665-670) without touching the store: the run
produces zero logs, yet a stale log from the prior run survives. -/
theorem c3_counterexample :
    (run_validation "2024-01-01" [] [staleLog]).1 = [staleLog] ∧
    (run_validation "2024-01-01" [] [staleLog]).2
      = Except.ok { issues_found := 0, validations := [] } ∧
    [staleLog] ≠ ([] : List ValidationLog) :=
  ⟨rfl, rfl, by decide⟩

/-- C3 amended: for every non-empty snapshot on which `validate_data`
returns, the persisted collection after the run holds exactly that run's
logs, whatever was stored before; the empty snapshot instead returns early
and leaves the prior logs in place. -/
theorem c3_replace_all_nonempty (today : String)
    (balances : List CashBalance) (prior logs : List ValidationLog)
    (hne : balances ≠ []) (hok : validate_data today balances = Except.ok logs) :
    (run_validation today balances prior).1 = logs ∧
    (run_validation today balances prior).2
      = Except.ok { issues_found := logs.length, validations := logs } := by
  unfold run_validation
  rw [if_neg hne, hok]
  exact ⟨rfl, rfl⟩

/-- C3 witness: a clean single-record snapshot produces no logs, and the
run replaces the stale stored log with that empty log set. -/
theorem c3_witness :
    ([balE1] ≠ ([] : List CashBalance)) ∧
    validate_data "2024-01-01" [balE1] = Except.ok [] ∧
    (run_validation "2024-01-01" [balE1] [staleLog]).1 = [] :=
  ⟨by decide, rfl,
   (c3_replace_all_nonempty "2024-01-01" [balE1] [staleLog] []
     (by decide) rfl).1⟩

/-- The C6 property of a pool calculation: participants are exactly the
fetched balances; each participant's `variance_from_avg` is
`balance_usd - average_balance` (rounded to two decimals at the response
boundary, hence within 1/200 of the exact value); `Surplus` iff the exact
variance is positive, `Deficit` otherwise; the exact variances sum to zero
and the reported ones to at most `n/200` in absolute value. -/
def poolCalcSpec (pool : CashPool) (coll : List CashBalance) : Prop :=
  let balances := participantBalances pool coll
  let total := (balances.map (fun b => b.balance_usd)).sum
  let avg := total / (balances.length : ℚ)
  ∃ participants,
    calculate_cash_pooling pool coll
      = .full pool.pool_name pool.pool_type (round2 total) (round2 avg)
          participants ∧
    participants.length = balances.length ∧
    (∀ q ∈ participants, ∃ b ∈ balances,
      q.account = b.account_number ∧ q.entity = b.entity_code ∧
      q.balance_usd = b.balance_usd ∧
      q.variance_from_avg = round2 (b.balance_usd - avg) ∧
      |q.variance_from_avg - (b.balance_usd - avg)| ≤ 1/200 ∧
      (q.status = "Surplus" ↔ 0 < b.balance_usd - avg) ∧
      (q.status = "Deficit" ↔ ¬ 0 < b.balance_usd - avg)) ∧
    (balances.map (fun b => b.balance_usd - avg)).sum = 0 ∧
    |(participants.map (fun q => q.variance_from_avg)).sum|
      ≤ (balances.length : ℚ) * (1/200)

/-- C6: every pool calculation over a non-empty participant-balance set
satisfies `poolCalcSpec`. -/
theorem c6_pool_variance (pool : CashPool) (coll : List CashBalance)
    (h : participantBalances pool coll ≠ []) : poolCalcSpec pool coll := by
  have hlen : ((participantBalances pool coll).length : ℚ) ≠ 0 := by
    exact_mod_cast Nat.pos_iff_ne_zero.mp (List.length_pos.mpr h)
  have hzero : ((participantBalances pool coll).map
      (fun b => b.balance_usd -
        poolAverage (participantBalances pool coll))).sum = 0 :=
    sum_sub_poolAverage _ hlen
  have hptwise : ∀ b ∈ participantBalances pool coll,
      |round2 (b.balance_usd - poolAverage (participantBalances pool coll))
        - (b.balance_usd - poolAverage (participantBalances pool coll))|
        ≤ 1/200 := fun b _ => abs_round2_sub_le _
  have hclose := sum_map_close _ _ _ _ hptwise
  rw [hzero, sub_zero] at hclose
  simp only [poolCalcSpec]
  refine ⟨(participantBalances pool coll).map
      (mkParticipant (poolAverage (participantBalances pool coll))),
    ?_, by simp, ?_, hzero, ?_⟩
  · unfold calculate_cash_pooling
    rw [if_neg h]
    rfl
  · intro q hq
    rw [List.mem_map] at hq
    obtain ⟨b, hb, rfl⟩ := hq
    refine ⟨b, hb, rfl, rfl, rfl, rfl, abs_round2_sub_le _, ?_, ?_⟩
    · by_cases hv : 0 < b.balance_usd -
          poolAverage (participantBalances pool coll)
      · simp [mkParticipant, poolAverage, hv]
      · simp [mkParticipant, poolAverage, hv]
    · by_cases hv : 0 < b.balance_usd -
          poolAverage (participantBalances pool coll)
      · simp [mkParticipant, poolAverage, hv]
      · simp [mkParticipant, poolAverage, hv]
  · rw [List.map_map]
    exact hclose

/-- C6 witness: the Scenario C pool fetches the two balances for accounts A
and B, a non-empty set, so `c6_pool_variance` applies to it. -/
theorem c6_witness :
    (participantBalances scenarioPool scenarioBalances
      ≠ ([] : List CashBalance)) ∧
    poolCalcSpec scenarioPool scenarioBalances :=
  ⟨by decide, c6_pool_variance scenarioPool scenarioBalances (by decide)⟩

/-- The C9 property of a validation run: it returns its logs, of which the
`duplicate`-typed ones are exactly one `(High, Open)` log carrying
`affected_records = len(records) - len(distinct (account_number,
balance_date) pairs)` when that count is at least 1 and none otherwise; and
two records sharing a pair alongside any number of other distinct records
contribute exactly 1 to the count. -/
def duplicateCheckSpec (today : String) (balances : List CashBalance) :
    Prop :=
  ∃ logs, validate_data today balances = Except.ok logs ∧
    logs.filter (fun l => l.check_type = "duplicate")
      = (if 1 ≤ dupCount balances then
          [ { check_date := today
            , check_type := "duplicate"
            , severity := "High"
            , description := "Found " ++ toString (dupCount balances) ++
                " duplicate account-date combinations"
            , affected_records := dupCount balances
            , status := "Open" } ]
         else []) ∧
    dupCount balances
      = balances.length - (account_dates balances).toFinset.card ∧
    (∀ (p : String × String) (rest : List (String × String)),
      account_dates balances = p :: p :: rest → (p :: rest).Nodup →
      dupCount balances = 1)

/-- C9 counterexample: the claim quantifies over every balance snapshot,
but on a snapshot holding a null-balance record together with a duplicated
`(account_number, balance_date)` pair, the run raises at the negative-cash
check (`server.py` line 151, the C4 bug) before the duplicate check ever
runs — so no `(High, Open)` duplicate log is emitted although the duplicate
count is 1. -/
theorem c9_counterexample :
    1 ≤ dupCount [nullBalance, balE1, balE1] ∧
    validate_data "2024-01-01" [nullBalance, balE1, balE1]
      = Except.error "TypeError: comparison of NoneType and int" :=
  ⟨by decide, rfl⟩

/-- C9 amended: every balance snapshot free of null `balance_local` values
(so that `validate_data` returns instead of raising — see C4) satisfies
`duplicateCheckSpec`: the duplicate-typed logs are exactly one `(High,
Open)` log with `affected_records = len(records) - len(distinct pairs)`
when that count is at least 1 and none otherwise, and two records sharing
a pair contribute exactly 1 whatever other distinct records exist. -/
theorem c9_duplicate_check (today : String) (balances : List CashBalance)
    (h : ∀ b ∈ balances, b.balance_local ≠ none) :
    duplicateCheckSpec today balances := by
  have hany : (balances.any fun b => b.balance_local = none) = false := by
    rw [List.any_eq_false]
    intro b hb
    simpa using h b hb
  refine ⟨missingLogs today balances ++ negativeLogs today balances ++
    dupLogs today balances, ?_, ?_, ?_, ?_⟩
  · unfold validate_data
    rw [hany]
    rfl
  · have hm : (missingLogs today balances).filter
        (fun l => l.check_type = "duplicate") = [] := by
      unfold missingLogs
      split <;> simp
    have hn : (negativeLogs today balances).filter
        (fun l => l.check_type = "duplicate") = [] := by
      unfold negativeLogs
      split <;> simp
    rw [List.filter_append, List.filter_append, hm, hn]
    unfold dupLogs
    by_cases hd : dupCount balances > 0
    · have hd' : 1 ≤ dupCount balances := hd
      rw [if_pos hd, if_pos hd']
      simp
    · have hd' : ¬ 1 ≤ dupCount balances := hd
      rw [if_neg hd, if_neg hd']
      simp
  · simp [dupCount, account_dates]
  · intro p rest heq hnd
    unfold dupCount
    rw [heq]
    have hcard : (p :: p :: rest).toFinset.card = rest.length + 1 := by
      rw [List.toFinset_cons, List.toFinset_cons, Finset.insert_idem,
        ← List.toFinset_cons, List.toFinset_card_of_nodup hnd]
      simp
    rw [hcard]
    simp only [List.length_cons]
    omega

/-- C9 witness: the snapshot `[balE1, balE1, balE2]` has no null balances
and contains one duplicated `(account_number, balance_date)` pair, so
`c9_duplicate_check` applies to it. -/
theorem c9_witness :
    (∀ b ∈ [balE1, balE1, balE2], b.balance_local ≠ none) ∧
    duplicateCheckSpec "2024-01-01" [balE1, balE1, balE2] :=
  ⟨by decide, c9_duplicate_check "2024-01-01" [balE1, balE1, balE2]
    (by decide)⟩

end Treasury
